import Mathlib

/-!
Shallow embedding of `src/PfeifferMaxigauge.py` (MBI-Div-B/pytango-PfeifferMaxiGauge).

The Tango device class `PfeifferMaxigauge` drives a Pfeiffer Maxigauge pressure
controller over a pyvisa serial transport.  The transport is modelled as an
explicit state (`InstState`): a queue of pending reply lines (what
`inst.read()` will return next), the log of line writes (`inst.query` /
`inst.write`), the log of raw byte writes (`inst.write_raw`), and the two Tango
log streams (`debug_stream`, `error_stream`).  A read from an empty queue
models a pyvisa timeout and is a `timeoutError`; a Python `IndexError` from
list subscription is `indexError`.  Fallible operations return
`Except PyError`.
-/

/-- Control characters, from the module header of the source
(`ACK = "\x06"`, `NAK = "\x15"`, `ENQ = "\x05"`, `ETX = "\x03"`). -/
def ACK : Char := Char.ofNat 6

def NAK : Char := Char.ofNat 21

def ENQ : Char := Char.ofNat 5

def ETX : Char := Char.ofNat 3

/-- Python exceptions that the modelled code can raise. -/
inductive PyError where
  | timeoutError
  | indexError
deriving DecidableEq, Repr

deriving instance DecidableEq for Except

/-- The pyvisa instrument handle plus the Tango log streams, as explicit state. -/
structure InstState where
  /-- Reply lines the device will deliver, in order (`inst.read()` pops the head). -/
  pending : List String
  /-- Command lines written so far (`inst.query`'s write half, terminator left implicit). -/
  writes : List String
  /-- Raw byte writes (`inst.write_raw`). -/
  rawWrites : List String
  /-- Messages sent to `debug_stream`. -/
  debugLog : List String
  /-- Messages sent to `error_stream`. -/
  errorLog : List String
deriving DecidableEq, Repr

/-- `self.inst.read()`: pop the next pending reply line; timeout if none. -/
def instRead (s : InstState) : Except PyError (String × InstState) :=
  match s.pending with
  | [] => .error .timeoutError
  | a :: rest => .ok (a, { s with pending := rest })

/-- `self.inst.query(msg)`: write the command line, then read one reply line. -/
def instQuery (msg : String) (s : InstState) : Except PyError (String × InstState) :=
  instRead { s with writes := s.writes ++ [msg] }

/-- `self.inst.write_raw(b)`: write raw bytes with no terminator. -/
def instWriteRaw (b : String) (s : InstState) : InstState :=
  { s with rawWrites := s.rawWrites ++ [b] }

/-- `self.debug_stream(m)`. -/
def debugStream (m : String) (s : InstState) : InstState :=
  { s with debugLog := s.debugLog ++ [m] }

/-- `self.error_stream(m)`. -/
def errorStream (m : String) (s : InstState) : InstState :=
  { s with errorLog := s.errorLog ++ [m] }

/-- Python `"\x06" in ans`: containment of a one-character string is character
membership. -/
def containsChar (c : Char) (s : String) : Bool :=
  s.toList.contains c

/-- Uppercase hexadecimal digits of `n` (Python `X` format), no padding. -/
def hexUpper (n : Nat) : List Char :=
  (Nat.toDigits 16 n).map Char.toUpper

/-- Pad a digit list to width two with leading zeros (Python `{:02X}`). -/
def pad2 (l : List Char) : List Char :=
  if l.length < 2 then List.replicate (2 - l.length) '0' ++ l else l

/-- `hexformat(text)` from the source: each character's code point rendered as
`{ord(s):02X}`, joined with single spaces. -/
def hexformat (text : String) : String :=
  " ".intercalate (text.toList.map (fun c => String.mk (pad2 (hexUpper c.toNat))))

/-- `PfeifferMaxigauge.query` (source lines 227-251): send `argin`, read the
reply; if it contains ACK, send a raw ENQ and return the next reply line;
if it contains NAK (and no ACK), log an error and return `""`; otherwise log
an error with the hex dump and return `""`. -/
def query (argin : String) (s : InstState) : Except PyError (String × InstState) := do
  let s := debugStream ("query: " ++ argin) s
  let (ans, s) ← instQuery argin s
  let ansHex := hexformat ans
  let s := debugStream ("reply: " ++ ans ++ " (" ++ ansHex ++ ")") s
  let reply := ""
  if containsChar ACK ans then
    let s := debugStream "Received ACK, proceeding with ENQ" s
    let s := instWriteRaw (String.mk [ENQ]) s
    let (reply, s) ← instRead s
    let replyHex := hexformat reply
    let s := debugStream ("reply: " ++ reply ++ " (" ++ replyHex ++ ")") s
    pure (reply, s)
  else if containsChar NAK ans then
    let s := errorStream ("Query resulted in NAK: " ++ argin) s
    pure (reply, s)
  else
    let s := errorStream ("Did not receive ACK on message, got " ++ ansHex ++ " instead") s
    pure (reply, s)

/-- The string `query` returns, forgetting the final transport state. -/
def queryVal (argin : String) (s : InstState) : Except PyError String :=
  (query argin s).map Prod.fst

/-! ### Python `str.split(',')` and `float()` (the builtins used by `read_sensor`) -/

/-- Python `str.split(sep)` for a one-character separator: splits at every
occurrence, keeping empty fields; `"".split(',') = [""]`. -/
def splitChar (sep : Char) : List Char → List (List Char)
  | [] => [[]]
  | c :: rest =>
    if c = sep then [] :: splitChar sep rest
    else
      match splitChar sep rest with
      | [] => [[c]]
      | g :: gs => (c :: g) :: gs

/-- `ans.split(sep)` on strings. -/
def pySplit (sep : Char) (s : String) : List String :=
  (splitChar sep s.toList).map String.mk

/-- ASCII whitespace stripped by Python `float()` before parsing. -/
def isPySpace (c : Char) : Bool :=
  c = ' ' || c = '\t' || c = '\n' || c = '\r' || c = Char.ofNat 11 || c = Char.ofNat 12

/-- Strip leading and trailing whitespace. -/
def stripWs (l : List Char) : List Char :=
  ((l.dropWhile isPySpace).reverse.dropWhile isPySpace).reverse

/-- Greedily consume further digits of a Python `digitpart`
(`digit (["_"] digit)*`): an underscore is consumed only when a digit
follows it; anything else ends the digit run. -/
def digitGo (acc : List Nat) : List Char → List Nat × List Char
  | [] => (acc, [])
  | c :: rest =>
    if c.isDigit then digitGo (acc ++ [c.toNat - 48]) rest
    else if c = '_' then
      match rest with
      | d :: rest2 =>
        if d.isDigit then digitGo (acc ++ [d.toNat - 48]) rest2
        else (acc, c :: rest)
      | [] => (acc, [c])
    else (acc, c :: rest)

/-- A Python `digitpart`: at least one digit, then `digitGo`. -/
def parseDigitpart (l : List Char) : Option (List Nat × List Char) :=
  match l with
  | c :: rest => if c.isDigit then some (digitGo [c.toNat - 48] rest) else none
  | [] => none

/-- Numeric value of a digit list (most significant first). -/
def digitsVal (ds : List Nat) : Nat :=
  ds.foldl (fun a d => 10 * a + d) 0

/-- Mantissa of a float literal: `digitpart ["." [digitpart]]` or
`"." digitpart`; returns integer digits, fraction digits, and the rest. -/
def parseMantissa (l : List Char) : Option ((List Nat × List Nat) × List Char) :=
  match l with
  | '.' :: rest =>
    match parseDigitpart rest with
    | some (fd, r) => some (([], fd), r)
    | none => none
  | _ =>
    match parseDigitpart l with
    | some (id, r) =>
      match r with
      | '.' :: r2 =>
        match parseDigitpart r2 with
        | some (fd, r3) => some ((id, fd), r3)
        | none => some ((id, []), r2)
      | _ => some ((id, []), r)
    | none => none

/-- Exponent part `("e"|"E") [sign] digitpart`, if present. -/
def parseExponent (l : List Char) : Option (Int × List Char) :=
  match l with
  | c :: rest =>
    if c = 'e' || c = 'E' then
      let (esign, r) :=
        match rest with
        | '+' :: r2 => (false, r2)
        | '-' :: r2 => (true, r2)
        | _ => (false, rest)
      match parseDigitpart r with
      | some (ed, r2) =>
        let e : Int := digitsVal ed
        some (if esign then -e else e, r2)
      | none => none
    else none
  | [] => none

/-- An exact finite value of a Python float literal, as a fraction in lowest
terms with positive denominator.  (The embedding idealizes IEEE doubles as
exact decimal values; the denominator is a quotient of a power of ten.) -/
structure DecimalVal where
  num : Int
  den : Nat
deriving DecidableEq, Repr

/-- Canonical value of `(-1)^neg * m * 10^d` as a `DecimalVal` in lowest
terms. -/
def normVal (neg : Bool) (m : Nat) (d : Int) : DecimalVal :=
  if 0 ≤ d then
    let n := m * 10 ^ d.toNat
    { num := if neg then -(n : Int) else (n : Int), den := 1 }
  else
    let den := 10 ^ (-d).toNat
    let g := Nat.gcd m den
    { num := if neg then -((m / g : Nat) : Int) else ((m / g : Nat) : Int),
      den := den / g }

/-- Results of Python `float()`: a finite value, a signed infinity, or NaN. -/
inductive PyFloat where
  | finite (v : DecimalVal)
  | inf (neg : Bool)
  | nan
deriving DecidableEq, Repr

/-- The numeric part of a float literal after the sign: mantissa and optional
exponent, requiring the whole input to be consumed. -/
def parseFloatBody (neg : Bool) (l : List Char) : Option DecimalVal :=
  match parseMantissa l with
  | some ((id, fd), r) =>
    let m := digitsVal (id ++ fd)
    let fl : Int := fd.length
    match parseExponent r with
    | some (e, r2) => if r2 = [] then some (normVal neg m (e - fl)) else none
    | none => if r = [] then some (normVal neg m (0 - fl)) else none
  | none => none

/-- Python `float(s)` on ASCII input: strip whitespace, optional sign, then
either a case-insensitive `inf`/`infinity`/`nan` or a decimal literal
(with PEP 515 underscores).  `none` models `ValueError`. -/
def pyFloatOfString (s : String) : Option PyFloat :=
  let l := stripWs s.toList
  if l = [] then none
  else
    let (neg, l2) :=
      match l with
      | '+' :: r => (false, r)
      | '-' :: r => (true, r)
      | _ => (false, l)
    let low := l2.map Char.toLower
    if low = "inf".toList || low = "infinity".toList then some (.inf neg)
    else if low = "nan".toList then some .nan
    else
      match parseFloatBody neg l2 with
      | some v => some (.finite v)
      | none => none

/-! ### `read_sensor` and the mask commands -/

/-- The decode step of `read_sensor` (source lines 269-274): the
`try` block unpacks `ans.split(',')` into exactly two names and applies
`float` to the second; any exception (wrong field count or `ValueError`)
is swallowed and yields `nan`. -/
def decodeReply (ans : String) : PyFloat :=
  match pySplit ',' ans with
  | [_status, p] =>
    match pyFloatOfString p with
    | some v => v
    | none => PyFloat.nan
  | _ => PyFloat.nan

/-- `PfeifferMaxigauge.read_sensor` (source lines 259-274): query
`PR{argin}` and best-effort decode the reply. -/
def read_sensor (argin : Int) (s : InstState) : Except PyError (PyFloat × InstState) := do
  let (ans, s2) ← query ("PR" ++ toString argin) s
  pure (decodeReply ans, s2)

/-- The value `read_sensor` returns, forgetting the final transport state. -/
def readSensorVal (argin : Int) (s : InstState) : Except PyError PyFloat :=
  (read_sensor argin s).map Prod.fst

/-- Python list subscription assignment `l[i] = v`: negative indices count
from the end; out-of-range raises `IndexError`. -/
def pyListSet (l : List Nat) (i : Int) (v : Nat) : Except PyError (List Nat) :=
  if 0 ≤ (if i < 0 then i + l.length else i) ∧
      (if i < 0 then i + l.length else i) < l.length then
    .ok (l.set (if i < 0 then i + l.length else i).toNat v)
  else
    .error .indexError

/-- `PfeifferMaxigauge.enable_sensor` (source lines 189-201):
`mask = 6*[0]; mask[argin-1] = 2`, then `query("SEN,{mask_str}")` with the
mask comma-joined.  (The Tango layer types `argin` as a signed 64-bit
integer; the Python body is total in `argin` up to the `IndexError`.) -/
def enable_sensor (argin : Int) (s : InstState) : Except PyError InstState := do
  let mask ← pyListSet (List.replicate 6 0) (argin - 1) 2
  let maskStr := ",".intercalate (mask.map toString)
  let (_, s2) ← query ("SEN," ++ maskStr) s
  pure s2

/-- `PfeifferMaxigauge.disable_sensor` (source lines 208-220): identical to
`enable_sensor` but writes `1` into the mask slot. -/
def disable_sensor (argin : Int) (s : InstState) : Except PyError InstState := do
  let mask ← pyListSet (List.replicate 6 0) (argin - 1) 1
  let maskStr := ",".intercalate (mask.map toString)
  let (_, s2) ← query ("SEN," ++ maskStr) s
  pure s2

/-- The spec's `setChannelEnabled(channel, enabled)`, realized in the source
as the pair `enable_sensor` / `disable_sensor`. -/
def setChannelEnabled (channel : Int) (enabled : Bool) (s : InstState) : Except PyError InstState :=
  if enabled then enable_sensor channel s else disable_sensor channel s

/-- Modelled from the spec: the mask serialization the spec describes, "a
6-length mask that is all zero except index (channel-1)", comma-joined with
no brackets or spaces (`channel` is 1-based here). -/
def specMaskString (channel : Nat) (v : Nat) : String :=
  ",".intercalate ((List.range 6).map (fun i => if i + 1 = channel then toString v else "0"))

/-- A fresh transport state with the given pending device replies. -/
def mkState (pending : List String) : InstState :=
  { pending := pending, writes := [], rawWrites := [], debugLog := [], errorLog := [] }

/-- Modelled from the spec: the invariant "a Reading is either a finite
numeric value or the NaN sentinel". -/
def isFiniteOrNan : PyFloat → Bool
  | .finite _ => true
  | .nan => true
  | .inf _ => false

/-- The SEN command line `enable_sensor` / `disable_sensor` build for a raw
channel argument `c` and mask value `v` (abbreviation for the theorems
below; the mask slot is Python index `c - 1`). -/
def senCmd (c : Int) (v : Nat) : String :=
  "SEN," ++ ",".intercalate (((List.replicate 6 0).set
    (if c - 1 < 0 then c - 1 + 6 else c - 1).toNat v).map toString)

/-! ### Helper lemmas -/

/-- Unfolded behavior of `query` on the ACK path: with the first pending
reply containing ACK, a raw ENQ is written, the second pending line is
consumed and returned. -/
theorem query_ack_spec (ans reply : String) (rest : List String) (s : InstState)
    (hp : s.pending = ans :: reply :: rest) (hack : containsChar ACK ans = true)
    (argin : String) :
    query argin s = .ok (reply,
      { pending := rest,
        writes := s.writes ++ [argin],
        rawWrites := s.rawWrites ++ [String.mk [ENQ]],
        debugLog := s.debugLog ++ ["query: " ++ argin,
          "reply: " ++ ans ++ " (" ++ hexformat ans ++ ")",
          "Received ACK, proceeding with ENQ",
          "reply: " ++ reply ++ " (" ++ hexformat reply ++ ")"],
        errorLog := s.errorLog }) := by
  simp [query, instQuery, instRead, debugStream, instWriteRaw, hp, hack,
    Except.instMonad, Bind.bind, Except.bind, Functor.map, Except.map, pure, Except.pure]

/-- Unfolded behavior of `query` when the first reply contains no ACK:
the empty string is returned, no raw write and no second read happen, and
one error-stream entry is appended (NAK wording if NAK is present, the hex
dump wording otherwise). -/
theorem query_noack_spec (ans : String) (rest : List String) (s : InstState)
    (hp : s.pending = ans :: rest) (hack : containsChar ACK ans = false)
    (argin : String) :
    query argin s = .ok ("",
      { pending := rest,
        writes := s.writes ++ [argin],
        rawWrites := s.rawWrites,
        debugLog := s.debugLog ++ ["query: " ++ argin,
          "reply: " ++ ans ++ " (" ++ hexformat ans ++ ")"],
        errorLog := s.errorLog ++
          [if containsChar NAK ans then "Query resulted in NAK: " ++ argin
           else "Did not receive ACK on message, got " ++ hexformat ans ++ " instead"] }) := by
  by_cases hnak : containsChar NAK ans <;>
    simp [query, instQuery, instRead, debugStream, errorStream, hp, hack, hnak,
      Except.instMonad, Bind.bind, Except.bind, Functor.map, Except.map, pure, Except.pure]

/-! ### C1 and C2 -/

/-- C1: whenever the first reply line contains the ACK byte anywhere (other
bytes, NAK included, are irrelevant), `query` writes a single raw ENQ byte,
reads one more reply line, and returns that second line. -/
theorem query_ack_returns_payload (argin ans reply : String) (rest : List String)
    (s : InstState) (hp : s.pending = ans :: reply :: rest)
    (hack : containsChar ACK ans = true) :
    ∃ s2, query argin s = .ok (reply, s2) ∧
      s2.rawWrites = s.rawWrites ++ [String.mk [ENQ]] ∧
      s2.pending = rest ∧
      s2.writes = s.writes ++ [argin] :=
  ⟨_, query_ack_spec ans reply rest s hp hack argin, rfl, rfl, rfl⟩

/-- Witness for C1 at a first reply containing both ACK and NAK. -/
theorem query_ack_returns_payload_wit :
    containsChar ACK (String.mk [NAK, ACK, 'x']) = true ∧
    ∃ s2, query "PR1" (mkState [String.mk [NAK, ACK, 'x'], "0,1.0e-3"]) =
        .ok ("0,1.0e-3", s2) ∧
      s2.rawWrites = [] ++ [String.mk [ENQ]] ∧
      s2.pending = [] ∧
      s2.writes = [] ++ ["PR1"] :=
  ⟨by decide,
   query_ack_returns_payload "PR1" (String.mk [NAK, ACK, 'x']) "0,1.0e-3" []
     (mkState [String.mk [NAK, ACK, 'x'], "0,1.0e-3"]) rfl (by decide)⟩

/-- C2: whenever the first reply line contains no ACK byte, `query` returns
the empty string, sends no ENQ, performs no second read, and the two no-ACK
cases (NAK present vs neither byte) differ only in the error-stream entry. -/
theorem query_noack_returns_empty (argin ans : String) (rest : List String)
    (s : InstState) (hp : s.pending = ans :: rest)
    (hack : containsChar ACK ans = false) :
    ∃ s2, query argin s = .ok ("", s2) ∧
      s2.rawWrites = s.rawWrites ∧
      s2.pending = rest ∧
      s2.writes = s.writes ++ [argin] ∧
      s2.debugLog = s.debugLog ++ ["query: " ++ argin,
        "reply: " ++ ans ++ " (" ++ hexformat ans ++ ")"] ∧
      s2.errorLog = s.errorLog ++
        [if containsChar NAK ans then "Query resulted in NAK: " ++ argin
         else "Did not receive ACK on message, got " ++ hexformat ans ++ " instead"] :=
  ⟨_, query_noack_spec ans rest s hp hack argin, rfl, rfl, rfl, rfl, rfl⟩

/-- Witness for C2 at a NAK reply and at a reply with neither control byte. -/
theorem query_noack_returns_empty_wit :
    (containsChar ACK (String.mk [NAK]) = false ∧
     ∃ s2, query "PR3" (mkState [String.mk [NAK]]) = .ok ("", s2) ∧
       s2.rawWrites = [] ∧
       s2.pending = [] ∧
       s2.writes = [] ++ ["PR3"] ∧
       s2.debugLog = [] ++ ["query: PR3",
         "reply: " ++ String.mk [NAK] ++ " (" ++ hexformat (String.mk [NAK]) ++ ")"] ∧
       s2.errorLog = [] ++
         [if containsChar NAK (String.mk [NAK]) then "Query resulted in NAK: PR3"
          else "Did not receive ACK on message, got " ++ hexformat (String.mk [NAK]) ++ " instead"]) ∧
    (containsChar ACK "???" = false ∧
     ∃ s2, query "PR1" (mkState ["???"]) = .ok ("", s2) ∧
       s2.rawWrites = [] ∧
       s2.pending = [] ∧
       s2.writes = [] ++ ["PR1"] ∧
       s2.debugLog = [] ++ ["query: PR1",
         "reply: " ++ "???" ++ " (" ++ hexformat "???" ++ ")"] ∧
       s2.errorLog = [] ++
         [if containsChar NAK "???" then "Query resulted in NAK: PR1"
          else "Did not receive ACK on message, got " ++ hexformat "???" ++ " instead"]) :=
  ⟨⟨by decide, query_noack_returns_empty "PR3" (String.mk [NAK]) [] (mkState [String.mk [NAK]])
      rfl (by decide)⟩,
   ⟨by decide, query_noack_returns_empty "PR1" "???" [] (mkState ["???"]) rfl (by decide)⟩⟩

/-! ### Helper lemmas for `read_sensor` -/

/-- If `queryVal` reports `ans`, then `query` returned `ans` with some state. -/
theorem queryVal_ok (cmd : String) (s : InstState) (ans : String)
    (h : queryVal cmd s = .ok ans) : ∃ s2, query cmd s = .ok (ans, s2) := by
  unfold queryVal at h
  cases hq : query cmd s with
  | error e => rw [hq] at h; simp [Except.map] at h
  | ok p =>
    obtain ⟨a, s2⟩ := p
    rw [hq] at h
    simp [Except.map] at h
    exact ⟨s2, by rw [h]⟩

/-- `read_sensor` returns exactly `decodeReply` of the string `query` returned. -/
theorem readSensorVal_eq_decode (argin : Int) (s : InstState) (ans : String)
    (s2 : InstState) (h : query ("PR" ++ toString argin) s = .ok (ans, s2)) :
    readSensorVal argin s = .ok (decodeReply ans) := by
  unfold readSensorVal read_sensor
  rw [h]
  simp [Except.instMonad, Bind.bind, Except.bind, Except.map, pure, Except.pure]

/-- `read_sensor` propagates a `query` failure unchanged. -/
theorem readSensorVal_of_query_error (argin : Int) (s : InstState) (e : PyError)
    (h : query ("PR" ++ toString argin) s = .error e) :
    readSensorVal argin s = .error e := by
  unfold readSensorVal read_sensor
  rw [h]
  rfl

/-- Splitting a list that does not contain the separator yields the list
itself as the single field. -/
theorem splitChar_not_mem (sep : Char) (l : List Char) (h : sep ∉ l) :
    splitChar sep l = [l] := by
  induction l with
  | nil => rfl
  | cons c rest ih =>
    have hcs : ¬ c = sep := by
      intro e
      exact h (by rw [e]; exact List.mem_cons_self sep rest)
    have hm : sep ∉ rest := fun m => h (List.mem_cons_of_mem c m)
    simp [splitChar, hcs, ih hm]

/-- `containsChar c s = false` means `c` is not among the characters of `s`. -/
theorem containsChar_false_not_mem (c : Char) (s : String)
    (h : containsChar c s = false) : c ∉ s.toList := by
  intro m
  simp [containsChar, List.contains, List.elem_eq_mem] at h
  exact h m

/-- A string with no comma splits into itself as the single field. -/
theorem pySplit_no_comma (ans : String) (h : containsChar ',' ans = false) :
    pySplit ',' ans = [ans] := by
  have hs := splitChar_not_mem ',' ans.toList (containsChar_false_not_mem ',' ans h)
  show (splitChar ',' ans.toList).map String.mk = [ans]
  rw [hs]
  rfl

/-! ### C3, C4, C10 and C7 -/

/-- C3: for every query result of the form `<status>,<value>` with exactly one
comma and a second field that is a valid float literal, `read_sensor` returns
exactly the value that literal denotes. -/
theorem read_sensor_two_field_value (argin : Int) (s : InstState)
    (ans status val : String) (v : PyFloat)
    (hq : queryVal ("PR" ++ toString argin) s = .ok ans)
    (hsplit : pySplit ',' ans = [status, val])
    (hparse : pyFloatOfString val = some v) :
    readSensorVal argin s = .ok v := by
  obtain ⟨s2, h⟩ := queryVal_ok _ s ans hq
  rw [readSensorVal_eq_decode argin s ans s2 h]
  simp [decodeReply, hsplit, hparse]

/-- Witness for C3: end-to-end scenario 1 of the spec
(`PR1` acknowledged, payload `0,1.234e-05`, value `1.234e-05`). -/
theorem read_sensor_two_field_value_wit :
    queryVal ("PR" ++ toString (1 : Int)) (mkState [String.mk [ACK], "0,1.234e-05"]) =
      .ok "0,1.234e-05" ∧
    pySplit ',' "0,1.234e-05" = ["0", "1.234e-05"] ∧
    pyFloatOfString "1.234e-05" = some (.finite { num := 617, den := 50000000 }) ∧
    readSensorVal 1 (mkState [String.mk [ACK], "0,1.234e-05"]) =
      .ok (.finite { num := 617, den := 50000000 }) :=
  ⟨by decide, by decide, by decide,
   read_sensor_two_field_value 1 (mkState [String.mk [ACK], "0,1.234e-05"])
     "0,1.234e-05" "0" "1.234e-05" (.finite { num := 617, den := 50000000 })
     (by decide) (by decide) (by decide)⟩

/-- C4: for every query result that fails to decode (empty, comma-free, or
with a second field that is not a valid float literal), `read_sensor`
returns the NaN sentinel and raises nothing. -/
theorem read_sensor_bad_reply_nan (argin : Int) (s : InstState) (ans : String)
    (hq : queryVal ("PR" ++ toString argin) s = .ok ans)
    (hbad : ans = "" ∨ containsChar ',' ans = false ∨
      ∃ status val, pySplit ',' ans = [status, val] ∧ pyFloatOfString val = none) :
    readSensorVal argin s = .ok PyFloat.nan := by
  obtain ⟨s2, h⟩ := queryVal_ok _ s ans hq
  rw [readSensorVal_eq_decode argin s ans s2 h]
  rcases hbad with rfl | hnc | ⟨status, val, hsplit, hparse⟩
  · rfl
  · simp [decodeReply, pySplit_no_comma ans hnc]
  · simp [decodeReply, hsplit, hparse]

/-- Witness for C4: end-to-end scenario 2 of the spec (`PR3` answered by NAK,
empty query result, NaN reading). -/
theorem read_sensor_bad_reply_nan_wit :
    queryVal ("PR" ++ toString (3 : Int)) (mkState [String.mk [NAK]]) = .ok "" ∧
    readSensorVal 3 (mkState [String.mk [NAK]]) = .ok PyFloat.nan :=
  ⟨by decide,
   read_sensor_bad_reply_nan 3 (mkState [String.mk [NAK]]) "" (by decide) (Or.inl rfl)⟩

/-- C10: a query result with three or more comma-separated fields decodes to
the NaN sentinel, even when the individual fields would parse. -/
theorem read_sensor_three_fields_nan (argin : Int) (s : InstState)
    (ans a b c : String) (rest : List String)
    (hq : queryVal ("PR" ++ toString argin) s = .ok ans)
    (hsplit : pySplit ',' ans = a :: b :: c :: rest) :
    readSensorVal argin s = .ok PyFloat.nan := by
  obtain ⟨s2, h⟩ := queryVal_ok _ s ans hq
  rw [readSensorVal_eq_decode argin s ans s2 h]
  simp [decodeReply, hsplit]

/-- Witness for C10 on the reply `1.0,2.0,3.0`, whose adjacent fields all
parse as float literals. -/
theorem read_sensor_three_fields_nan_wit :
    queryVal ("PR" ++ toString (2 : Int)) (mkState [String.mk [ACK], "1.0,2.0,3.0"]) =
      .ok "1.0,2.0,3.0" ∧
    pySplit ',' "1.0,2.0,3.0" = ["1.0", "2.0", "3.0"] ∧
    (pyFloatOfString "1.0").isSome = true ∧
    (pyFloatOfString "2.0").isSome = true ∧
    (pyFloatOfString "3.0").isSome = true ∧
    readSensorVal 2 (mkState [String.mk [ACK], "1.0,2.0,3.0"]) = .ok PyFloat.nan :=
  ⟨by decide, by decide, by decide, by decide, by decide,
   read_sensor_three_fields_nan 2 (mkState [String.mk [ACK], "1.0,2.0,3.0"])
     "1.0,2.0,3.0" "1.0" "2.0" "3.0" [] (by decide) (by decide)⟩

/-- C7 counterexample: with the device replying `0,inf` to `PR1`,
`read_sensor` returns a positive infinity, which is neither a finite value
nor the NaN sentinel. -/
theorem read_sensor_inf_cex :
    readSensorVal 1 (mkState [String.mk [ACK], "0,inf"]) = .ok (PyFloat.inf false) ∧
    isFiniteOrNan (PyFloat.inf false) = false := by
  exact ⟨by decide, by decide⟩

/-- C7 amended: every value `read_sensor` returns is a finite value, the NaN
sentinel, or an infinity, and an infinity occurs only when the query reply's
second field is itself a float literal denoting that infinity. -/
theorem read_sensor_value_range (argin : Int) (s : InstState) (v : PyFloat)
    (h : readSensorVal argin s = .ok v) :
    isFiniteOrNan v = true ∨
      ∃ ans status val b, queryVal ("PR" ++ toString argin) s = .ok ans ∧
        pySplit ',' ans = [status, val] ∧
        pyFloatOfString val = some (PyFloat.inf b) ∧ v = PyFloat.inf b := by
  cases hq : query ("PR" ++ toString argin) s with
  | error e =>
    rw [readSensorVal_of_query_error argin s e hq] at h
    simp at h
  | ok p =>
    obtain ⟨ans, s2⟩ := p
    rw [readSensorVal_eq_decode argin s ans s2 hq] at h
    have hqv : queryVal ("PR" ++ toString argin) s = .ok ans := by
      unfold queryVal; rw [hq]; rfl
    have hv : decodeReply ans = v := by simpa using h
    rcases hsp : pySplit ',' ans with _ | ⟨st, _ | ⟨val, _ | ⟨c3, tl⟩⟩⟩
    · left; rw [← hv]; simp [decodeReply, hsp, isFiniteOrNan]
    · left; rw [← hv]; simp [decodeReply, hsp, isFiniteOrNan]
    · cases hpf : pyFloatOfString val with
      | none => left; rw [← hv]; simp [decodeReply, hsp, hpf, isFiniteOrNan]
      | some u =>
        have hu : u = v := by rw [← hv]; simp [decodeReply, hsp, hpf]
        cases u with
        | finite q => left; rw [← hu]; rfl
        | nan => left; rw [← hu]; rfl
        | inf b => exact Or.inr ⟨ans, st, val, b, hqv, hsp, hpf, hu.symm⟩
    · left; rw [← hv]; simp [decodeReply, hsp, isFiniteOrNan]

/-- Witness for the amended C7 at a finite reading. -/
theorem read_sensor_value_range_wit :
    readSensorVal 1 (mkState [String.mk [ACK], "0,1.5"]) =
      .ok (PyFloat.finite { num := 3, den := 2 }) ∧
    (isFiniteOrNan (PyFloat.finite { num := 3, den := 2 }) = true ∨
      ∃ ans status val b,
        queryVal ("PR" ++ toString (1 : Int)) (mkState [String.mk [ACK], "0,1.5"]) =
          .ok ans ∧
        pySplit ',' ans = [status, val] ∧
        pyFloatOfString val = some (PyFloat.inf b) ∧
        PyFloat.finite { num := 3, den := 2 } = PyFloat.inf b) :=
  ⟨by decide,
   read_sensor_value_range 1 (mkState [String.mk [ACK], "0,1.5"])
     (PyFloat.finite { num := 3, den := 2 }) (by decide)⟩

/-! ### Helper lemmas for the mask commands -/

/-- `pyListSet` succeeds when the (negative-index-adjusted) position is in
range. -/
theorem pyListSet_ok (v : Nat) (l : List Nat) (i : Int)
    (h0 : 0 ≤ if i < 0 then i + l.length else i)
    (h1 : (if i < 0 then i + l.length else i) < l.length) :
    pyListSet l i v = .ok (l.set (if i < 0 then i + l.length else i).toNat v) := by
  unfold pyListSet
  rw [if_pos ⟨h0, h1⟩]

/-- `pyListSet` raises `IndexError` when the adjusted position is out of
range. -/
theorem pyListSet_err (v : Nat) (l : List Nat) (i : Int)
    (h : ¬ (0 ≤ (if i < 0 then i + l.length else i) ∧
      (if i < 0 then i + l.length else i) < l.length)) :
    pyListSet l i v = .error .indexError := by
  unfold pyListSet
  rw [if_neg h]

/-- For a raw channel argument in `[-5,6]`, the mask write lands in the slot
`c+5` (negative wrap) or `c-1`. -/
theorem pyListSet_mask_ok (v : Nat) (c : Int) (hlo : -5 ≤ c) (hhi : c ≤ 6) :
    pyListSet (List.replicate 6 0) (c - 1) v =
      .ok ((List.replicate 6 0).set (if c ≤ 0 then c + 5 else c - 1).toNat v) := by
  have hj : (if c - 1 < 0 then c - 1 + ((List.replicate 6 (0 : Nat)).length : Int)
      else c - 1) = (if c ≤ 0 then c + 5 else c - 1) := by
    simp only [List.length_replicate]
    by_cases h : c - 1 < 0
    · rw [if_pos h, if_pos (by omega)]; omega
    · rw [if_neg h, if_neg (by omega)]
  rw [pyListSet_ok v _ _ (by rw [hj]; split <;> omega)
    (by rw [hj]; simp only [List.length_replicate]; split <;> omega), hj]

/-- With the mask subscription succeeding and the device replying without
ACK, `enable_sensor` terminates normally and its effect is the logged `SEN`
query built from the mask. -/
theorem enable_sensor_spec (c : Int) (m : List Nat)
    (hm : pyListSet (List.replicate 6 0) (c - 1) 2 = .ok m)
    (ans : String) (rest : List String) (s : InstState)
    (hp : s.pending = ans :: rest) (hack : containsChar ACK ans = false) :
    enable_sensor c s = .ok
      { pending := rest,
        writes := s.writes ++ ["SEN," ++ ",".intercalate (m.map toString)],
        rawWrites := s.rawWrites,
        debugLog := s.debugLog ++
          ["query: " ++ ("SEN," ++ ",".intercalate (m.map toString)),
           "reply: " ++ ans ++ " (" ++ hexformat ans ++ ")"],
        errorLog := s.errorLog ++
          [if containsChar NAK ans then
            "Query resulted in NAK: " ++ ("SEN," ++ ",".intercalate (m.map toString))
           else "Did not receive ACK on message, got " ++ hexformat ans ++ " instead"] } := by
  unfold enable_sensor
  rw [hm]
  simp only [Except.instMonad, Bind.bind, Except.bind]
  rw [query_noack_spec ans rest s hp hack]
  rfl

/-- `disable_sensor` analogue of `enable_sensor_spec` (mask value 1). -/
theorem disable_sensor_spec (c : Int) (m : List Nat)
    (hm : pyListSet (List.replicate 6 0) (c - 1) 1 = .ok m)
    (ans : String) (rest : List String) (s : InstState)
    (hp : s.pending = ans :: rest) (hack : containsChar ACK ans = false) :
    disable_sensor c s = .ok
      { pending := rest,
        writes := s.writes ++ ["SEN," ++ ",".intercalate (m.map toString)],
        rawWrites := s.rawWrites,
        debugLog := s.debugLog ++
          ["query: " ++ ("SEN," ++ ",".intercalate (m.map toString)),
           "reply: " ++ ans ++ " (" ++ hexformat ans ++ ")"],
        errorLog := s.errorLog ++
          [if containsChar NAK ans then
            "Query resulted in NAK: " ++ ("SEN," ++ ",".intercalate (m.map toString))
           else "Did not receive ACK on message, got " ++ hexformat ans ++ " instead"] } := by
  unfold disable_sensor
  rw [hm]
  simp only [Except.instMonad, Bind.bind, Except.bind]
  rw [query_noack_spec ans rest s hp hack]
  rfl

/-- The serialized mask built by the source equals the mask string the spec
describes, for any 1-based channel in `[1,6]` and any slot value. -/
theorem mask_str_spec (v : Nat) (c : Int) (h1 : 1 ≤ c) (h6 : c ≤ 6) :
    ",".intercalate (((List.replicate 6 0).set (c - 1).toNat v).map toString) =
      specMaskString c.toNat v := by
  interval_cases c <;> rfl

/-! ### C5, C8, C9 and C6 -/

/-- C5: for every channel in `[1,6]`, `setChannelEnabled` issues a `SEN`
query whose payload is the comma-joined 6-element mask that is all zeros
except slot `channel-1`, which is 2 when enabling and 1 when disabling. -/
theorem setChannelEnabled_sen_command (channel : Int) (enabled : Bool)
    (s : InstState) (ans : String) (rest : List String)
    (h1 : 1 ≤ channel) (h6 : channel ≤ 6)
    (hp : s.pending = ans :: rest) (hack : containsChar ACK ans = false) :
    ∃ s2, setChannelEnabled channel enabled s = .ok s2 ∧
      s2.writes = s.writes ++
        ["SEN," ++ specMaskString channel.toNat (if enabled then 2 else 1)] := by
  cases enabled with
  | true =>
    have hm := pyListSet_mask_ok 2 channel (by omega) h6
    rw [if_neg (by omega : ¬ channel ≤ 0)] at hm
    refine ⟨_, enable_sensor_spec channel _ hm ans rest s hp hack, ?_⟩
    show s.writes ++ ["SEN," ++ ",".intercalate
      (((List.replicate 6 0).set (channel - 1).toNat 2).map toString)] = _
    rw [mask_str_spec 2 channel h1 h6]
    rfl
  | false =>
    have hm := pyListSet_mask_ok 1 channel (by omega) h6
    rw [if_neg (by omega : ¬ channel ≤ 0)] at hm
    refine ⟨_, disable_sensor_spec channel _ hm ans rest s hp hack, ?_⟩
    show s.writes ++ ["SEN," ++ ",".intercalate
      (((List.replicate 6 0).set (channel - 1).toNat 1).map toString)] = _
    rw [mask_str_spec 1 channel h1 h6]
    rfl

/-- Witness for C5: end-to-end scenario 4 of the spec, enabling channel 4
issues the payload `SEN,0,0,0,2,0,0`. -/
theorem setChannelEnabled_sen_command_wit :
    specMaskString (4 : Int).toNat 2 = "0,0,0,2,0,0" ∧
    ∃ s2, setChannelEnabled 4 true (mkState [String.mk [NAK]]) = .ok s2 ∧
      s2.writes = (mkState [String.mk [NAK]]).writes ++
        ["SEN," ++ specMaskString (4 : Int).toNat (if true then 2 else 1)] :=
  ⟨by decide,
   setChannelEnabled_sen_command 4 true (mkState [String.mk [NAK]]) (String.mk [NAK]) []
     (by decide) (by decide) rfl (by decide)⟩

/-- C8: enabling the same channel twice in a row issues two structurally
identical `SEN` command strings — the command depends only on the channel. -/
theorem enable_sensor_idempotent_command (c : Int) (s : InstState)
    (a1 a2 : String) (rest : List String) (h1 : 1 ≤ c) (h6 : c ≤ 6)
    (hp : s.pending = a1 :: a2 :: rest)
    (hk1 : containsChar ACK a1 = false) (hk2 : containsChar ACK a2 = false) :
    ∃ w s1 s2, enable_sensor c s = .ok s1 ∧ enable_sensor c s1 = .ok s2 ∧
      s1.writes = s.writes ++ [w] ∧ s2.writes = s1.writes ++ [w] := by
  have hm := pyListSet_mask_ok 2 c (by omega) h6
  rw [if_neg (by omega : ¬ c ≤ 0)] at hm
  exact ⟨_, _, _, enable_sensor_spec c _ hm a1 (a2 :: rest) s hp hk1,
    enable_sensor_spec c _ hm a2 rest _ rfl hk2, rfl, rfl⟩

/-- Witness for C8 on channel 2 with two non-ACK replies queued. -/
theorem enable_sensor_idempotent_command_wit :
    ∃ w s1 s2, enable_sensor 2 (mkState ["a", "b"]) = .ok s1 ∧
      enable_sensor 2 s1 = .ok s2 ∧
      s1.writes = (mkState ["a", "b"]).writes ++ [w] ∧
      s2.writes = s1.writes ++ [w] :=
  enable_sensor_idempotent_command 2 (mkState ["a", "b"]) "a" "b" []
    (by decide) (by decide) rfl (by decide) (by decide)

/-- C9: for raw channel arguments in `[-5,0]` neither `enable_sensor` nor
`disable_sensor` fails — Python negative indexing wraps slot `channel-1`
onto the slot counted from the end (1-based slot `channel+6`); in particular
`enable_sensor 0` issues `SEN,0,0,0,0,0,2`, touching channel 6's slot. -/
theorem negative_channel_wraps (c : Int) (hlo : -5 ≤ c) (hhi : c ≤ 0)
    (s : InstState) (ans : String) (rest : List String)
    (hp : s.pending = ans :: rest) (hack : containsChar ACK ans = false) :
    (∃ s1, enable_sensor c s = .ok s1 ∧
       s1.writes = s.writes ++ ["SEN," ++ specMaskString (c + 6).toNat 2]) ∧
    (∃ s1, disable_sensor c s = .ok s1 ∧
       s1.writes = s.writes ++ ["SEN," ++ specMaskString (c + 6).toNat 1]) := by
  have he := pyListSet_mask_ok 2 c hlo (by omega)
  have hd := pyListSet_mask_ok 1 c hlo (by omega)
  rw [if_pos hhi] at he hd
  have hb2 := mask_str_spec 2 (c + 6) (by omega) (by omega)
  have hb1 := mask_str_spec 1 (c + 6) (by omega) (by omega)
  rw [show (c + 6 - 1 : Int) = c + 5 from by omega] at hb1 hb2
  constructor
  · refine ⟨_, enable_sensor_spec c _ he ans rest s hp hack, ?_⟩
    show s.writes ++ ["SEN," ++ ",".intercalate
      (((List.replicate 6 0).set (c + 5).toNat 2).map toString)] = _
    rw [hb2]
  · refine ⟨_, disable_sensor_spec c _ hd ans rest s hp hack, ?_⟩
    show s.writes ++ ["SEN," ++ ",".intercalate
      (((List.replicate 6 0).set (c + 5).toNat 1).map toString)] = _
    rw [hb1]

/-- Witness for C9 at channel 0: the last mask slot is silently modified. -/
theorem negative_channel_wraps_wit :
    specMaskString ((0 : Int) + 6).toNat 2 = "0,0,0,0,0,2" ∧
    ((∃ s1, enable_sensor 0 (mkState ["x", "y"]) = .ok s1 ∧
        s1.writes = (mkState ["x", "y"]).writes ++
          ["SEN," ++ specMaskString ((0 : Int) + 6).toNat 2]) ∧
     (∃ s1, disable_sensor 0 (mkState ["x", "y"]) = .ok s1 ∧
        s1.writes = (mkState ["x", "y"]).writes ++
          ["SEN," ++ specMaskString ((0 : Int) + 6).toNat 1])) :=
  ⟨by decide,
   negative_channel_wraps 0 (by decide) (by decide) (mkState ["x", "y"]) "x" ["y"]
     rfl (by decide)⟩

/-- C6 counterexample: channel 0 lies outside `[1,6]`, yet `enable_sensor 0`
raises no index error — via negative indexing it sends `SEN,0,0,0,0,0,2`. -/
theorem enable_sensor_channel_zero_cex :
    enable_sensor 0 (mkState [String.mk [NAK]]) = .ok
      { pending := [],
        writes := ["SEN,0,0,0,0,0,2"],
        rawWrites := [],
        debugLog := ["query: SEN,0,0,0,0,0,2",
          "reply: " ++ String.mk [NAK] ++ " (15)"],
        errorLog := ["Query resulted in NAK: SEN,0,0,0,0,0,2"] } := by
  decide

/-- C6 amended: only channel values above 6 or below -5 make
`enable_sensor` / `disable_sensor` fail with an index error during mask
construction, before any command is sent (the error preempts the query);
values in `[-5,0]` instead wrap onto an existing slot. -/
theorem channel_far_out_of_range_index_error (c : Int)
    (h : c ≤ -6 ∨ 7 ≤ c) (s : InstState) :
    enable_sensor c s = .error .indexError ∧
      disable_sensor c s = .error .indexError := by
  have hset : ∀ v : Nat, pyListSet (List.replicate 6 0) (c - 1) v =
      .error .indexError := by
    intro v
    apply pyListSet_err
    simp only [List.length_replicate]
    split <;> omega
  constructor <;>
    simp only [enable_sensor, disable_sensor, hset, Except.instMonad, Bind.bind, Except.bind]

/-- Witness for the amended C6 at channel 7. -/
theorem channel_far_out_of_range_index_error_wit :
    ((7 : Int) ≤ -6 ∨ 7 ≤ (7 : Int)) ∧
    (enable_sensor 7 (mkState []) = .error .indexError ∧
      disable_sensor 7 (mkState []) = .error .indexError) :=
  ⟨Or.inr (by decide),
   channel_far_out_of_range_index_error 7 (Or.inr (by decide)) (mkState [])⟩
